import Mathlib

/-!
Verification development for the ais-exporter repository.

The Python source (src/ais_exporter/exporter.py) is shallowly embedded here:

* Python floats are modelled as rationals (ℚ); the transcendental library
  functions the code imports from math (atan composed with degrees, sin, cos,
  asin, sqrt, radians) are passed as explicit function parameters, with the
  analytic facts a theorem needs stated as hypotheses about those parameters.
* Python `int(x)` truncation toward zero is `truncQ`.
* Python float `%` (sign of the divisor) is `pymod`.
* Python sequence indexing (with negative-index wraparound and IndexError
  out of range) is `pyIndex` returning `Option`.
* Exceptions are explicit: fallible steps return `Option`/`Except` values or
  a result paired with an `Option PyErr`.
-/

/-- Errors raised by the embedded Python code. -/
inductive PyErr
  | indexError
  | keyError
  | cancelled
  | fetchError (msg : String)
deriving DecidableEq, Repr

/-- Python int() applied to a float: truncation toward zero. -/
def truncQ (q : ℚ) : ℤ :=
  if 0 ≤ q then ⌊q⌋ else ⌈q⌉

/-- Python sequence indexing: nonnegative indices from the front, negative
indices wrap from the back, anything out of range is an IndexError (none). -/
def pyIndex {α : Type} (l : List α) (i : ℤ) : Option α :=
  if 0 ≤ i then l[i.toNat]?
  else if -(l.length : ℤ) ≤ i then l[(l.length + i).toNat]?
  else none

/-- Python float modulo: the result carries the sign of the divisor,
a - b * floor(a / b). -/
def pymod (a b : ℚ) : ℚ :=
  a - b * (⌊a / b⌋ : ℤ)

/-- The Position named tuple from exporter.py: (latitude, longitude). -/
structure Position where
  latitude : ℚ
  longitude : ℚ
deriving DecidableEq, Repr

/-- The relative_angle function from exporter.py. The Python code computes
degrees(atan((lon2 - lon1) / (lat2 - lat1))); the composite function
degrees of atan is abstracted as the parameter atanDeg. -/
def relative_angle (atanDeg : ℚ → ℚ) (pos1 pos2 : Position) : ℚ :=
  if pos2.latitude = pos1.latitude then
    if pos2.longitude > pos1.longitude then 90 else 270
  else
    if pos2.latitude > pos1.latitude then
      pymod (360 + atanDeg ((pos2.longitude - pos1.longitude) /
        (pos2.latitude - pos1.latitude))) 360
    else
      180 + atanDeg ((pos2.longitude - pos1.longitude) /
        (pos2.latitude - pos1.latitude))

/-- The direction_lut lookup table from exporter.py: 16 steps of 22.5 degrees. -/
def direction_lut : List String :=
  ["N", "NE", "NE", "E", "E", "SE", "SE", "S",
   "S", "SW", "SW", "W", "W", "NW", "NW", "N"]

/-- The relative_direction function from exporter.py:
direction_lut[int(angle / 22.5)]. -/
def relative_direction (angle : ℚ) : Option String :=
  pyIndex direction_lut (truncQ (angle / 22.5))

/-- The haversine_distance function from exporter.py. The math library
functions sin, cos, asin, sqrt and the degree-to-radian conversion are
abstracted as the function parameters sinA, cosA, asinA, sqrtA, radA. -/
def haversine_distance (sinA cosA asinA sqrtA radA : ℚ → ℚ)
    (pos1 pos2 : Position) (radius : ℚ := 6371000) : ℚ :=
  2 * radius * asinA (sqrtA
    (sinA ((radA pos2.latitude - radA pos1.latitude) / 2) ^ 2 +
     cosA (radA pos1.latitude) * cosA (radA pos2.latitude) *
       sinA ((radA pos2.longitude - radA pos1.longitude) / 2) ^ 2))

lemma truncQ_of_nonneg {q : ℚ} (hq : 0 ≤ q) : truncQ q = ⌊q⌋ := if_pos hq

lemma truncQ_of_neg {q : ℚ} (hq : ¬ 0 ≤ q) : truncQ q = ⌈q⌉ := if_neg hq

lemma truncQ_eval_pos (q : ℚ) (n : ℤ) (hq : 0 ≤ q) (h1 : (n : ℚ) ≤ q)
    (h2 : q < (n : ℚ) + 1) : truncQ q = n := by
  rw [truncQ_of_nonneg hq]
  exact Int.floor_eq_iff.mpr ⟨h1, h2⟩

lemma truncQ_eval_neg (q : ℚ) (n : ℤ) (hq : ¬ 0 ≤ q) (h1 : (n : ℚ) - 1 < q)
    (h2 : q ≤ (n : ℚ)) : truncQ q = n := by
  rw [truncQ_of_neg hq]
  exact Int.ceil_eq_iff.mpr ⟨h1, h2⟩

lemma direction_lut_length : direction_lut.length = 16 := by decide

lemma direction_lut_isSome {n : ℕ} (h : n < 16) :
    (direction_lut[n]?).isSome = true := by
  have hall : ∀ m : ℕ, m < 16 → (direction_lut[m]?).isSome = true := by decide
  exact hall n h

/-- C3: relative_direction is a deterministic total function on [0, 360),
returning the floor(angle / 22.5)-th entry of the 16-entry compass table, with
relative_direction 0 = "N", relative_direction 359.9 = "N",
relative_direction 90 = "E", relative_direction 180 = "S",
relative_direction 270 = "W"; and for every angle at least 360 the lookup is
out of bounds and fails (an IndexError in the Python code, modelled as none). -/
theorem relative_direction_spec (a : ℚ) :
    (0 ≤ a → a < 360 →
      relative_direction a = direction_lut[(⌊a / 22.5⌋).toNat]? ∧
      (relative_direction a).isSome = true) ∧
    relative_direction 0 = some "N" ∧
    relative_direction (359.9 : ℚ) = some "N" ∧
    relative_direction 90 = some "E" ∧
    relative_direction 180 = some "S" ∧
    relative_direction 270 = some "W" ∧
    (360 ≤ a → relative_direction a = none) := by
  have heval : ∀ (b : ℚ) (n : ℤ), 0 ≤ n → (n : ℚ) ≤ b / 22.5 → b / 22.5 < (n : ℚ) + 1 →
      relative_direction b = direction_lut[n.toNat]? := by
    intro b n hn h1 h2
    have hq : 0 ≤ b / 22.5 := le_trans (by exact_mod_cast hn) h1
    have ht : truncQ (b / 22.5) = n := truncQ_eval_pos _ n hq h1 h2
    simp only [relative_direction, pyIndex, ht, if_pos hn]
  refine ⟨?_, ?_, ?_, ?_, ?_, ?_, ?_⟩
  · intro h0 h360
    have hq : 0 ≤ a / 22.5 := by positivity
    have hfl0 : 0 ≤ ⌊a / 22.5⌋ := Int.floor_nonneg.mpr hq
    have hfl16 : ⌊a / 22.5⌋ < 16 := by
      apply Int.floor_lt.mpr
      rw [div_lt_iff₀ (by norm_num : (0 : ℚ) < 22.5)]
      push_cast
      linarith
    have ht : truncQ (a / 22.5) = ⌊a / 22.5⌋ := truncQ_of_nonneg hq
    constructor
    · simp only [relative_direction, pyIndex, ht, if_pos hfl0]
    · have hlt : (⌊a / 22.5⌋).toNat < 16 := by omega
      simp only [relative_direction, pyIndex, ht, if_pos hfl0]
      exact direction_lut_isSome hlt
  · rw [heval 0 0 (by norm_num) (by norm_num) (by norm_num)]
    decide
  · rw [heval (359.9 : ℚ) 15 (by norm_num) (by norm_num) (by norm_num)]
    decide
  · rw [heval 90 4 (by norm_num) (by norm_num) (by norm_num)]
    decide
  · rw [heval 180 8 (by norm_num) (by norm_num) (by norm_num)]
    decide
  · rw [heval 270 12 (by norm_num) (by norm_num) (by norm_num)]
    decide
  · intro h360
    have hq : 0 ≤ a / 22.5 := by
      apply div_nonneg (by linarith) (by norm_num)
    have hfl : 16 ≤ ⌊a / 22.5⌋ := by
      apply Int.le_floor.mpr
      rw [le_div_iff₀ (by norm_num : (0 : ℚ) < 22.5)]
      push_cast
      linarith
    have ht : truncQ (a / 22.5) = ⌊a / 22.5⌋ := truncQ_of_nonneg hq
    have hlen : direction_lut.length ≤ (⌊a / 22.5⌋).toNat := by
      rw [direction_lut_length]
      omega
    simp only [relative_direction, pyIndex, ht,
      if_pos (le_trans (by norm_num : (0 : ℤ) ≤ 16) hfl)]
    exact List.getElem?_eq_none hlen

/-- C3 witness: the spec theorem applied at the concrete angles 45 and 400. -/
theorem relative_direction_spec_witness :
    (relative_direction 45).isSome = true ∧ relative_direction 400 = none :=
  ⟨((relative_direction_spec 45).1 (by norm_num) (by norm_num)).2,
   (relative_direction_spec 400).2.2.2.2.2.2 (by norm_num)⟩

/-- C10: for every angle in [-360, 0), outside the documented domain,
relative_direction does not fail: truncation toward zero combined with Python
negative indexing keeps the lookup in bounds, so a compass string is returned;
in particular every angle in (-22.5, 0) yields "N". -/
theorem relative_direction_negative (a : ℚ) (h1 : -360 ≤ a) (h2 : a < 0) :
    (relative_direction a).isSome = true ∧
    (-22.5 < a → relative_direction a = some "N") := by
  have hqneg : a / 22.5 < 0 := div_neg_of_neg_of_pos h2 (by norm_num)
  have hq : ¬ 0 ≤ a / 22.5 := not_le.mpr hqneg
  have ht : truncQ (a / 22.5) = ⌈a / 22.5⌉ := truncQ_of_neg hq
  have hup : ⌈a / 22.5⌉ ≤ 0 := Int.ceil_le.mpr (by exact_mod_cast le_of_lt hqneg)
  have hlow : (-16 : ℤ) ≤ ⌈a / 22.5⌉ := by
    have hle : (-16 : ℚ) ≤ a / 22.5 := by
      rw [le_div_iff₀ (by norm_num : (0 : ℚ) < 22.5)]
      linarith
    have := le_trans hle (Int.le_ceil (a / 22.5))
    exact_mod_cast this
  constructor
  · rcases eq_or_lt_of_le hup with hzero | hneg
    · simp only [relative_direction, pyIndex, ht, hzero]
      decide
    · have hnotpos : ¬ (0 : ℤ) ≤ ⌈a / 22.5⌉ := by omega
      have hwrap : -(direction_lut.length : ℤ) ≤ ⌈a / 22.5⌉ := by
        rw [direction_lut_length]
        exact hlow
      have hidx : ((direction_lut.length : ℤ) + ⌈a / 22.5⌉).toNat < 16 := by
        rw [direction_lut_length]
        omega
      simp only [relative_direction, pyIndex, ht, if_neg hnotpos, if_pos hwrap]
      exact direction_lut_isSome hidx
  · intro h3
    have hc : truncQ (a / 22.5) = 0 := by
      apply truncQ_eval_neg _ 0 hq
      · have hd : (-1 : ℚ) < a / 22.5 := by
          rw [lt_div_iff₀ (by norm_num : (0 : ℚ) < 22.5)]
          linarith
        push_cast
        linarith
      · exact_mod_cast le_of_lt hqneg
    simp only [relative_direction, pyIndex, hc]
    decide

/-- C10 witness: the negative-domain theorem applied at the concrete
angles -10 and -300. -/
theorem relative_direction_negative_witness :
    relative_direction (-10) = some "N" ∧
    (relative_direction (-300)).isSome = true :=
  ⟨(relative_direction_negative (-10) (by norm_num) (by norm_num)).2 (by norm_num),
   (relative_direction_negative (-300) (by norm_num) (by norm_num)).1⟩

lemma pymod_nonneg (a b : ℚ) (hb : 0 < b) : 0 ≤ pymod a b := by
  have hfl : (⌊a / b⌋ : ℚ) ≤ a / b := Int.floor_le (a / b)
  have hmul : b * (⌊a / b⌋ : ℚ) ≤ b * (a / b) :=
    mul_le_mul_of_nonneg_left hfl (le_of_lt hb)
  have hcancel : b * (a / b) = a := mul_div_cancel₀ a (ne_of_gt hb)
  rw [pymod]
  linarith

lemma pymod_lt (a b : ℚ) (hb : 0 < b) : pymod a b < b := by
  have hfl : a / b < (⌊a / b⌋ : ℚ) + 1 := Int.lt_floor_add_one (a / b)
  have hmul : b * (a / b) < b * ((⌊a / b⌋ : ℚ) + 1) :=
    mul_lt_mul_of_pos_left hfl hb
  have hcancel : b * (a / b) = a := mul_div_cancel₀ a (ne_of_gt hb)
  rw [pymod]
  nlinarith

/-- C5: for positions with equal latitudes, relative_angle returns exactly 90
when the target longitude exceeds the origin longitude and exactly 270
otherwise; the general atan formula is never invoked, rendered here as the
result being independent of the atan implementation. -/
theorem relative_angle_equal_lat (f g : ℚ → ℚ) (p1 p2 : Position)
    (h : p2.latitude = p1.latitude) :
    relative_angle f p1 p2 = (if p1.longitude < p2.longitude then 90 else 270) ∧
    relative_angle f p1 p2 = relative_angle g p1 p2 := by
  constructor
  · rw [relative_angle, if_pos h]
  · rw [relative_angle, if_pos h, relative_angle, if_pos h]

/-- C5 witness: the equal-latitude theorem applied to concrete positions with
two different atan implementations. -/
theorem relative_angle_equal_lat_witness :
    relative_angle (fun _ => 37) ⟨5, 0⟩ ⟨5, 3⟩ = 90 ∧
    relative_angle (fun _ => 37) ⟨5, 0⟩ ⟨5, 3⟩ =
      relative_angle (fun _ => 99) ⟨5, 0⟩ ⟨5, 3⟩ := by
  have h := relative_angle_equal_lat (fun _ => 37) (fun _ => 99) ⟨5, 0⟩ ⟨5, 3⟩ rfl
  refine ⟨?_, h.2⟩
  rw [h.1]
  norm_num

/-- C6: for positions with distinct latitudes, relative_angle returns
(360 + angle) mod 360 when the target latitude exceeds the origin latitude and
180 + angle otherwise, where angle is the atan-in-degrees of the longitude
delta over the latitude delta; given that atan-in-degrees ranges in (-90, 90),
the result always lies in [0, 360). -/
theorem relative_angle_general (atanDeg : ℚ → ℚ) (p1 p2 : Position)
    (hne : p2.latitude ≠ p1.latitude)
    (hrange : ∀ x, -90 < atanDeg x ∧ atanDeg x < 90) :
    (p1.latitude < p2.latitude →
      relative_angle atanDeg p1 p2 =
        pymod (360 + atanDeg ((p2.longitude - p1.longitude) /
          (p2.latitude - p1.latitude))) 360) ∧
    (p2.latitude < p1.latitude →
      relative_angle atanDeg p1 p2 =
        180 + atanDeg ((p2.longitude - p1.longitude) /
          (p2.latitude - p1.latitude))) ∧
    0 ≤ relative_angle atanDeg p1 p2 ∧ relative_angle atanDeg p1 p2 < 360 := by
  refine ⟨?_, ?_, ?_⟩
  · intro hgt
    rw [relative_angle, if_neg hne, if_pos hgt]
  · intro hlt
    have hngt : ¬ p2.latitude > p1.latitude := not_lt.mpr (le_of_lt hlt)
    rw [relative_angle, if_neg hne, if_neg hngt]
  · rw [relative_angle, if_neg hne]
    by_cases hgt : p2.latitude > p1.latitude
    · rw [if_pos hgt]
      exact ⟨pymod_nonneg _ 360 (by norm_num), pymod_lt _ 360 (by norm_num)⟩
    · rw [if_neg hgt]
      have hr := hrange ((p2.longitude - p1.longitude) /
        (p2.latitude - p1.latitude))
      constructor
      · linarith [hr.1]
      · linarith [hr.2]

/-- C6 witness: the general-case theorem applied to concrete positions with a
concrete atan implementation. -/
theorem relative_angle_general_witness :
    relative_angle (fun _ => (0 : ℚ)) ⟨0, 0⟩ ⟨1, 1⟩ = pymod (360 + 0) 360 ∧
    0 ≤ relative_angle (fun _ => (0 : ℚ)) ⟨0, 0⟩ ⟨1, 1⟩ ∧
    relative_angle (fun _ => (0 : ℚ)) ⟨0, 0⟩ ⟨1, 1⟩ < 360 := by
  have h := relative_angle_general (fun _ => (0 : ℚ)) ⟨0, 0⟩ ⟨1, 1⟩
    (by norm_num) (by intro x; norm_num)
  exact ⟨h.1 (by norm_num), h.2.2⟩

/-- C7: haversine_distance of a point with itself is 0 for every radius, and
haversine_distance is symmetric in its two positions; the hypotheses record
the analytic facts about the abstracted math functions (sin 0 = 0,
sqrt 0 = 0, asin 0 = 0, and the square of sin is even). -/
theorem haversine_zero_and_symm (sinA cosA asinA sqrtA radA : ℚ → ℚ)
    (hs : sinA 0 = 0) (hq : sqrtA 0 = 0) (ha : asinA 0 = 0)
    (hodd : ∀ x, sinA (-x) ^ 2 = sinA x ^ 2) :
    (∀ (p : Position) (radius : ℚ),
      haversine_distance sinA cosA asinA sqrtA radA p p radius = 0) ∧
    (∀ (p1 p2 : Position) (radius : ℚ),
      haversine_distance sinA cosA asinA sqrtA radA p1 p2 radius =
        haversine_distance sinA cosA asinA sqrtA radA p2 p1 radius) := by
  constructor
  · intro p radius
    rw [haversine_distance, sub_self, sub_self, zero_div, hs]
    norm_num [hq, ha]
  · intro p1 p2 radius
    have key : ∀ x y : ℚ, sinA ((x - y) / 2) ^ 2 = sinA ((y - x) / 2) ^ 2 := by
      intro x y
      have hx : (x - y) / 2 = -((y - x) / 2) := by ring
      rw [hx, hodd]
    rw [haversine_distance, haversine_distance,
      key (radA p2.latitude) (radA p1.latitude),
      key (radA p2.longitude) (radA p1.longitude),
      mul_comm (cosA (radA p1.latitude)) (cosA (radA p2.latitude))]

/-- C7 witness: the haversine theorem applied with the identity standing in
for each abstracted math function, at concrete positions and radius. -/
theorem haversine_zero_and_symm_witness :
    haversine_distance id id id id id ⟨1, 2⟩ ⟨1, 2⟩ 7 = 0 ∧
    haversine_distance id id id id id ⟨1, 2⟩ ⟨3, 4⟩ 7 =
      haversine_distance id id id id id ⟨3, 4⟩ ⟨1, 2⟩ 7 := by
  have h := haversine_zero_and_symm id id id id id rfl rfl rfl
    (fun x => by simp)
  exact ⟨h.1 ⟨1, 2⟩ 7, h.2 ⟨1, 2⟩ ⟨3, 4⟩ 7⟩

/-- A JSON scalar appearing in a ships record: a string or a number. -/
inductive JVal
  | s (v : String)
  | n (v : ℚ)
deriving DecidableEq, Repr

/-- One fixed-width ships record from the values array of the payload. -/
abbrev Record : Type := List JVal

/-- The label dict built by process_ships: (mmsi, name, country). -/
abbrev Labels : Type := JVal × JVal × JVal

/-- Modelled from the spec: a live aioprometheus Gauge (the metrics registry
adapter is an external collaborator); it holds the current value for each
label set, with set(labels, value) replacing the value stored under an
existing label set or adding a fresh one. -/
abbrev Gauge : Type := List (Labels × JVal)

/-- Modelled from the spec: Gauge.set(labels, value) of the metrics registry
adapter; replaces the value under an existing label set, else appends. -/
def gaugeSet (g : Gauge) (lbl : Labels) (v : JVal) : Gauge :=
  match g with
  | [] => [(lbl, v)]
  | (l, w) :: rest => if l = lbl then (lbl, v) :: rest else (l, w) :: gaugeSet rest lbl v

/-- Modelled from the spec: reading the current value a gauge holds for a
given label set. -/
def gaugeGet (g : Gauge) (lbl : Labels) : Option JVal :=
  match g with
  | [] => none
  | (l, w) :: rest => if l = lbl then some w else gaugeGet rest lbl

/-- The self.metrics["ships"] dict of the exporter: internal metric name to
gauge. -/
abbrev ShipsMetrics : Type := List (String × Gauge)

/-- Python dict lookup d[name] on the ships metrics dict (KeyError is none). -/
def dictGet (m : ShipsMetrics) (name : String) : Option Gauge :=
  match m with
  | [] => none
  | (k, g) :: rest => if k = name then some g else dictGet rest name

/-- In-place mutation of the gauge object stored under a metric name:
d[name].set(lbl, v). A missing name leaves the dict unchanged (the embedding
only invokes this after a successful lookup). -/
def setGaugeValue (m : ShipsMetrics) (name : String) (lbl : Labels) (v : JVal) :
    ShipsMetrics :=
  match m with
  | [] => []
  | (k, g) :: rest =>
    if k = name then (k, gaugeSet g lbl v) :: rest
    else (k, g) :: setGaugeValue rest name lbl v

/-- The value currently held by gauge name under label set lbl. -/
def gaugeValue (m : ShipsMetrics) (name : String) (lbl : Labels) : Option JVal :=
  match dictGet m name with
  | none => none
  | some g => gaugeGet g lbl

/-- The list of metric names registered in the ships metrics dict. -/
def metricNames (m : ShipsMetrics) : List String :=
  m.map (fun p => p.1)

/-- The loop body of process_ships for a single record a: build
ship_data = (a[0], a[31], a[22]) and set the lat and lon gauges from a[1] and
a[2]; any failed index or dict lookup raises, leaving the mutations already
made in place. -/
def applyRecord (m : ShipsMetrics) (a : Record) : ShipsMetrics × Option PyErr :=
  match pyIndex a 0 with
  | none => (m, some PyErr.indexError)
  | some mmsi =>
  match pyIndex a 31 with
  | none => (m, some PyErr.indexError)
  | some nm =>
  match pyIndex a 22 with
  | none => (m, some PyErr.indexError)
  | some country =>
  let lbl : Labels := (mmsi, nm, country)
  match dictGet m "lat" with
  | none => (m, some PyErr.keyError)
  | some _ =>
  match pyIndex a 1 with
  | none => (m, some PyErr.indexError)
  | some vlat =>
  let m1 := setGaugeValue m "lat" lbl vlat
  match dictGet m1 "lon" with
  | none => (m1, some PyErr.keyError)
  | some _ =>
  match pyIndex a 2 with
  | none => (m1, some PyErr.indexError)
  | some vlon => (setGaugeValue m1 "lon" lbl vlon, none)

/-- The for loop of process_ships over the values sequence: records are
processed in order until one raises; the error aborts the rest of the batch
while keeping the updates already applied. -/
def processShipsGo (m : ShipsMetrics) : List Record → ShipsMetrics × Option PyErr
  | [] => (m, none)
  | a :: rest =>
    match applyRecord m a with
    | (m1, none) => processShipsGo m1 rest
    | (m1, some e) => (m1, some e)

/-- The ships payload: a JSON object with a values array of records. -/
structure ShipsPayload where
  values : List Record
deriving DecidableEq

/-- The observable outcome of one process_ships call: the metrics dict after
the call, the warnings logged, and the exception that escaped (if any). -/
structure ProcResult where
  metrics : ShipsMetrics
  warns : List String
  err : Option PyErr
deriving DecidableEq

/-- The process_ships method from exporter.py: iterate the values array and
set the lat and lon gauges per record. The source contains no per-record
try/except and no logger.warning call, so the warnings list is always empty
and the first bad record raises out of the method. -/
def process_ships (m : ShipsMetrics) (ships : ShipsPayload) : ProcResult :=
  { metrics := (processShipsGo m ships.values).1
    warns := []
    err := (processShipsGo m ships.values).2 }

/-- The stats payload: a JSON object keyed by time-period name. -/
structure StatsPayload where
  periods : List (String × List (String × JVal))
deriving DecidableEq

/-- The process_stats method from exporter.py: its entire body is commented
out, so it changes nothing and never raises. -/
def process_stats (m : ShipsMetrics) (_stats : StatsPayload)
    (_time_periods : List String) : ShipsMetrics :=
  m

/-- Modelled from the spec: the Specs table of the metrics module
(src/ais_exporter/metrics.py is imported by exporter.py but is not in the
source tree). Per the spec, a MetricSpec is an (internal_name,
exported_label, help_text) triple and the ships group includes at least the
latitude and longitude gauges keyed as lat and lon. -/
def Specs_ships : List (String × String × String) :=
  [("lat", "latitude", "Ship latitude"),
   ("lon", "longitude", "Ship longitude")]

/-- The initialise_metrics method from exporter.py: build the ships metrics
dict with one fresh gauge per ships MetricSpec (the stats block is commented
out in the source). -/
def initialise_metrics : ShipsMetrics :=
  Specs_ships.map (fun spec => (spec.1, ([] : Gauge)))

/-- The aisResources named tuple from exporter.py. -/
structure aisResources where
  base : String
  stats : String
  ships : String
deriving DecidableEq

/-- The build_resources function from exporter.py: append the fixed suffixes
to the base address. -/
def build_resources (base : String) : aisResources :=
  { base := base
    stats := base ++ "/stat.json"
    ships := base ++ "/ships_array.json" }

/-- One HTTP GET (or file read) issued by the _fetch coroutine: the resource
address and the timeout handed to the session. -/
structure FetchCall where
  resource : String
  timeout : ℚ
deriving DecidableEq

/-- The _fetch coroutine signature from exporter.py: its timeout parameter
defaults to 2.0 seconds. -/
def fetchCall (resource : String) (timeout : ℚ := 2) : FetchCall :=
  { resource := resource, timeout := timeout }

/-- The constructor arguments of ais_exporter relevant here: the base
resource path and the fetch_timeout parameter (default 2.0), which __init__
stores as self.fetch_timeout. -/
structure ExporterCfg where
  resource_path : String
  fetch_timeout : ℚ := 2
deriving DecidableEq

/-- The fetch issued each tick by updater_ships: the source calls
_fetch(self.resources.ships) with no timeout argument. -/
def updater_ships_fetch (e : ExporterCfg) : FetchCall :=
  fetchCall (build_resources e.resource_path).ships

/-- The fetch issued each tick by updater_stats: the source calls
_fetch(self.resources.stats) with no timeout argument. -/
def updater_stats_fetch (e : ExporterCfg) : FetchCall :=
  fetchCall (build_resources e.resource_path).stats

/-- One tick of the updater_ships loop body: the try block fetches and runs
process_ships; any Exception (from the fetch or from processing) is caught
and logged, and the loop always reaches the sleep (the Bool result). -/
def updater_ships_tick (m : ShipsMetrics)
    (fetched : Except PyErr ShipsPayload) : ShipsMetrics × Bool :=
  match fetched with
  | .error _ => (m, true)
  | .ok ships => ((process_ships m ships).metrics, true)

/-- One tick of the updater_stats loop body, analogous to the ships tick. -/
def updater_stats_tick (m : ShipsMetrics) (time_periods : List String)
    (fetched : Except PyErr StatsPayload) : ShipsMetrics × Bool :=
  match fetched with
  | .error _ => (m, true)
  | .ok stats => (process_stats m stats time_periods, true)

/-- An asyncio task handle for one of the two updater loops. -/
structure TaskState where
  cancelled : Bool
deriving DecidableEq

/-- The poller-lifecycle part of the exporter state: the two task handles and
whether the metrics HTTP server is running. -/
structure PollerState where
  stats_task : Option TaskState
  ships_task : Option TaskState
  svr_running : Bool
deriving DecidableEq

/-- Task.cancel(): mark the task cancelled. -/
def cancelTask (_t : TaskState) : TaskState :=
  { cancelled := true }

/-- Awaiting an updater task: a cancelled task raises CancelledError; the
loops themselves never return (stop only awaits after cancelling). -/
def awaitTask (t : TaskState) : Except PyErr Unit :=
  if t.cancelled then Except.error PyErr.cancelled else Except.ok ()

/-- One guarded block of stop(): if the handle is set, cancel the task,
await it swallowing CancelledError, and clear the handle. -/
def stopOne (t : Option TaskState) : Except PyErr (Option TaskState) :=
  match t with
  | none => Except.ok none
  | some task =>
    match awaitTask (cancelTask task) with
    | Except.ok _ => Except.ok none
    | Except.error PyErr.cancelled => Except.ok none
    | Except.error e => Except.error e

/-- Modelled from the spec: aioprometheus Service.stop (an external
collaborator). Stopping an already-stopped server does not raise; it only
logs a benign warning, as the repository test for a double stop expects. -/
def svr_stop (running : Bool) : Bool × List String :=
  if running then (false, [])
  else (false, ["Prometheus metrics server is already stopped"])

/-- The stop() method from exporter.py: cancel and clear each task handle in
turn, then stop the metrics server. -/
def poller_stop (s : PollerState) : Except PyErr (PollerState × List String) :=
  match stopOne s.stats_task with
  | Except.error e => Except.error e
  | Except.ok st =>
    match stopOne s.ships_task with
    | Except.error e => Except.error e
    | Except.ok sh =>
      (fun (p : Bool × List String) =>
        Except.ok ({ stats_task := st, ships_task := sh, svr_running := p.1 }, p.2))
        (svr_stop s.svr_running)

/-- The full runtime state of one ais_exporter instance. -/
structure ExporterState where
  metrics : ShipsMetrics
  stats_task : Option TaskState
  ships_task : Option TaskState
  svr_running : Bool
deriving DecidableEq

/-- The operations that run against a live exporter: a tick of either feed
loop (with the outcome of its fetch), start(), and stop(). -/
inductive Op
  | shipsTick (fetched : Except PyErr ShipsPayload)
  | statsTick (time_periods : List String) (fetched : Except PyErr StatsPayload)
  | startOp
  | stopOp

/-- How each operation transforms the exporter state. start() launches the
server and the two tasks; stop() is poller_stop; the ticks only touch the
metrics dict. -/
def stepOp (s : ExporterState) (op : Op) : ExporterState :=
  match op with
  | Op.shipsTick fetched =>
    { s with metrics := (updater_ships_tick s.metrics fetched).1 }
  | Op.statsTick tps fetched =>
    { s with metrics := (updater_stats_tick s.metrics tps fetched).1 }
  | Op.startOp =>
    { s with svr_running := true
             stats_task := some { cancelled := false }
             ships_task := some { cancelled := false } }
  | Op.stopOp =>
    match poller_stop
        { stats_task := s.stats_task, ships_task := s.ships_task,
          svr_running := s.svr_running } with
    | Except.ok (p, _) =>
      { s with stats_task := p.stats_task, ships_task := p.ships_task,
               svr_running := p.svr_running }
    | Except.error _ => s

/-- A whole run: fold the operations over the state. -/
def runOps (s : ExporterState) (ops : List Op) : ExporterState :=
  ops.foldl stepOp s

lemma metricNames_setGaugeValue (m : ShipsMetrics) (name : String)
    (lbl : Labels) (v : JVal) :
    metricNames (setGaugeValue m name lbl v) = metricNames m := by
  induction m with
  | nil => rfl
  | cons p rest ih =>
    obtain ⟨k, g⟩ := p
    by_cases hk : k = name
    · simp [setGaugeValue, hk, metricNames]
    · simp only [setGaugeValue, if_neg hk, metricNames, List.map_cons]
      simp only [metricNames] at ih
      rw [ih]

lemma dictGet_setGaugeValue_isSome (m : ShipsMetrics) (name k : String)
    (lbl : Labels) (v : JVal) :
    (dictGet (setGaugeValue m name lbl v) k).isSome = (dictGet m k).isSome := by
  induction m with
  | nil => rfl
  | cons p rest ih =>
    obtain ⟨k0, g⟩ := p
    by_cases h0 : k0 = name
    · subst h0
      by_cases h1 : k0 = k
      · subst h1
        simp [setGaugeValue, dictGet]
      · simp [setGaugeValue, dictGet, h1]
    · by_cases h1 : k0 = k
      · subst h1
        simp [setGaugeValue, dictGet, h0]
      · simp [setGaugeValue, dictGet, h0, h1, ih]

lemma pyIndex_toNat_lt {α : Type} (l : List α) (i : ℤ) (h0 : 0 ≤ i)
    (h : i.toNat < l.length) : pyIndex l i = some l[i.toNat] := by
  rw [pyIndex, if_pos h0, List.getElem?_eq_getElem h]

lemma applyRecord_shape (m : ShipsMetrics) (a : Record) :
    (applyRecord m a).1 = m ∨
    (∃ lbl v, (applyRecord m a).1 = setGaugeValue m "lat" lbl v) ∨
    (∃ lbl v1 v2, (applyRecord m a).1 =
      setGaugeValue (setGaugeValue m "lat" lbl v1) "lon" lbl v2) := by
  rcases h0 : pyIndex a 0 with _ | v0
  · left
    simp [applyRecord, h0]
  rcases h31 : pyIndex a 31 with _ | v31
  · left
    simp [applyRecord, h0, h31]
  rcases h22 : pyIndex a 22 with _ | v22
  · left
    simp [applyRecord, h0, h31, h22]
  rcases hlat : dictGet m "lat" with _ | g1
  · left
    simp [applyRecord, h0, h31, h22, hlat]
  rcases h1 : pyIndex a 1 with _ | v1
  · left
    simp [applyRecord, h0, h31, h22, hlat, h1]
  rcases hlon : dictGet (setGaugeValue m "lat" (v0, v31, v22) v1) "lon" with _ | g2
  · right
    left
    exact ⟨(v0, v31, v22), v1, by simp [applyRecord, h0, h31, h22, hlat, h1, hlon]⟩
  rcases h2 : pyIndex a 2 with _ | v2
  · right
    left
    exact ⟨(v0, v31, v22), v1,
      by simp [applyRecord, h0, h31, h22, hlat, h1, hlon, h2]⟩
  · right
    right
    exact ⟨(v0, v31, v22), v1, v2,
      by simp [applyRecord, h0, h31, h22, hlat, h1, hlon, h2]⟩

lemma applyRecord_names (m : ShipsMetrics) (a : Record) :
    metricNames (applyRecord m a).1 = metricNames m := by
  rcases applyRecord_shape m a with h | ⟨l, v, h⟩ | ⟨l, v1, v2, h⟩ <;>
    rw [h] <;> simp [metricNames_setGaugeValue]

lemma applyRecord_dict_isSome (m : ShipsMetrics) (a : Record) (k : String) :
    (dictGet (applyRecord m a).1 k).isSome = (dictGet m k).isSome := by
  rcases applyRecord_shape m a with h | ⟨l, v, h⟩ | ⟨l, v1, v2, h⟩ <;>
    rw [h] <;> simp [dictGet_setGaugeValue_isSome]

lemma applyRecord_ok (m : ShipsMetrics) (a : Record) (ha : 32 ≤ a.length)
    (hlat : (dictGet m "lat").isSome = true)
    (hlon : (dictGet m "lon").isSome = true) :
    (applyRecord m a).2 = none := by
  have hn : ∀ n : ℤ, 0 ≤ n → n.toNat < 32 → ∃ v, pyIndex a n = some v := by
    intro n h0 h32
    have hlt : n.toNat < a.length := by omega
    exact ⟨a[n.toNat], pyIndex_toNat_lt a n h0 hlt⟩
  obtain ⟨v0, h0⟩ := hn 0 (by norm_num) (by norm_num)
  obtain ⟨v31, h31⟩ := hn 31 (by norm_num) (by norm_num)
  obtain ⟨v22, h22⟩ := hn 22 (by norm_num) (by norm_num)
  obtain ⟨v1, h1⟩ := hn 1 (by norm_num) (by norm_num)
  obtain ⟨v2, h2⟩ := hn 2 (by norm_num) (by norm_num)
  obtain ⟨g1, hg1⟩ := Option.isSome_iff_exists.mp hlat
  have hlon1 :
      (dictGet (setGaugeValue m "lat" (v0, v31, v22) v1) "lon").isSome = true := by
    rw [dictGet_setGaugeValue_isSome]
    exact hlon
  obtain ⟨g2, hg2⟩ := Option.isSome_iff_exists.mp hlon1
  simp [applyRecord, h0, h31, h22, h1, h2, hg1, hg2]

lemma applyRecord_short (m : ShipsMetrics) (a : Record) (ha : a.length < 32) :
    applyRecord m a = (m, some PyErr.indexError) := by
  match a with
  | [] =>
    have h0 : pyIndex ([] : Record) 0 = none := by
      rw [pyIndex, if_pos (by norm_num)]
      simp
    simp [applyRecord, h0]
  | x :: rest =>
    have h0 : pyIndex (x :: rest) 0 = some x := by
      rw [pyIndex, if_pos (by norm_num)]
      simp
    have h31 : pyIndex (x :: rest) 31 = none := by
      rw [pyIndex, if_pos (by norm_num)]
      apply List.getElem?_eq_none
      simp only [List.length_cons] at ha ⊢
      omega
    simp [applyRecord, h0, h31]

lemma processShipsGo_names (m : ShipsMetrics) (rs : List Record) :
    metricNames (processShipsGo m rs).1 = metricNames m := by
  induction rs generalizing m with
  | nil => rfl
  | cons a rest ih =>
    rcases h : applyRecord m a with ⟨m1, e⟩
    have hnames : metricNames m1 = metricNames m := by
      have h2 := applyRecord_names m a
      rw [h] at h2
      exact h2
    cases e with
    | none =>
      simp only [processShipsGo, h]
      rw [ih m1, hnames]
    | some e =>
      simp only [processShipsGo, h]
      exact hnames

lemma processShipsGo_ok (m : ShipsMetrics) (rs : List Record)
    (hr : ∀ r ∈ rs, 32 ≤ List.length r)
    (hlat : (dictGet m "lat").isSome = true)
    (hlon : (dictGet m "lon").isSome = true) :
    (processShipsGo m rs).2 = none ∧
    (dictGet (processShipsGo m rs).1 "lat").isSome = true ∧
    (dictGet (processShipsGo m rs).1 "lon").isSome = true := by
  induction rs generalizing m with
  | nil => exact ⟨rfl, hlat, hlon⟩
  | cons a rest ih =>
    have hlen : 32 ≤ List.length a := hr a (by simp)
    have hok : (applyRecord m a).2 = none := applyRecord_ok m a hlen hlat hlon
    rcases h : applyRecord m a with ⟨m1, e⟩
    rw [h] at hok
    subst hok
    have hlat1 : (dictGet m1 "lat").isSome = true := by
      have h2 := applyRecord_dict_isSome m a "lat"
      rw [h] at h2
      rw [h2]
      exact hlat
    have hlon1 : (dictGet m1 "lon").isSome = true := by
      have h2 := applyRecord_dict_isSome m a "lon"
      rw [h] at h2
      rw [h2]
      exact hlon
    simp only [processShipsGo, h]
    exact ih m1 (fun r hrm => hr r (by simp [hrm])) hlat1 hlon1

lemma processShipsGo_append (m : ShipsMetrics) (xs ys : List Record) :
    processShipsGo m (xs ++ ys) =
      match processShipsGo m xs with
      | (m1, none) => processShipsGo m1 ys
      | (m1, some e) => (m1, some e) := by
  induction xs generalizing m with
  | nil => rfl
  | cons a rest ih =>
    rcases h : applyRecord m a with ⟨m1, e⟩
    cases e with
    | none =>
      simp only [List.cons_append, processShipsGo, h]
      exact ih m1
    | some e =>
      simp only [List.cons_append, processShipsGo, h]

/-- C1 counterexample: a payload with one well-formed record followed by one
malformed record makes process_ships raise (the error escapes) and surface
zero warnings, contradicting the claim that it never raises and surfaces
exactly one warning. -/
theorem process_ships_malformed_cex :
    (process_ships initialise_metrics
      { values := [List.replicate 32 (JVal.n 0), [JVal.n 1]] }).err.isSome = true ∧
    (process_ships initialise_metrics
      { values := [List.replicate 32 (JVal.n 0), [JVal.n 1]] }).warns.length = 0 := by
  constructor <;> rfl

/-- C1 amended: for a ships payload of well-formed records (length at least
32, enough for indices 0, 1, 2, 22, 31) followed by one malformed record,
process_ships applies the gauge updates of the well-formed prefix, surfaces
no warning, and raises an IndexError at the malformed record, aborting the
rest of the batch. -/
theorem process_ships_malformed (m : ShipsMetrics) (good : List Record)
    (bad : Record) (hg : ∀ r ∈ good, 32 ≤ List.length r)
    (hb : bad.length < 32)
    (hlat : (dictGet m "lat").isSome = true)
    (hlon : (dictGet m "lon").isSome = true) :
    (process_ships m { values := good ++ [bad] }).err = some PyErr.indexError ∧
    (process_ships m { values := good ++ [bad] }).warns = [] ∧
    (process_ships m { values := good ++ [bad] }).metrics =
      (process_ships m { values := good }).metrics ∧
    (process_ships m { values := good }).err = none := by
  obtain ⟨herr, hlatg, hlong⟩ := processShipsGo_ok m good hg hlat hlon
  rcases hgo : processShipsGo m good with ⟨mg, e⟩
  rw [hgo] at herr
  subst herr
  rw [hgo] at hlatg hlong
  have happ : processShipsGo m (good ++ [bad]) = (mg, some PyErr.indexError) := by
    rw [processShipsGo_append, hgo]
    simp only [processShipsGo, applyRecord_short mg bad hb]
  refine ⟨?_, rfl, ?_, ?_⟩
  · simp [process_ships, happ]
  · simp [process_ships, happ, hgo]
  · simp [process_ships, hgo]

/-- C1 witness: the amended theorem applied to a concrete metrics dict,
one concrete well-formed record and one concrete short record. -/
theorem process_ships_malformed_witness :
    (process_ships initialise_metrics
      { values := [List.replicate 32 (JVal.n 0)] ++ [[JVal.n 1]] }).err =
        some PyErr.indexError ∧
    (process_ships initialise_metrics
      { values := [List.replicate 32 (JVal.n 0)] ++ [[JVal.n 1]] }).warns = [] := by
  have h := process_ships_malformed initialise_metrics
    [List.replicate 32 (JVal.n 0)] [JVal.n 1]
    (by intro r hr; simp at hr; subst hr; simp)
    (by simp) rfl rfl
  exact ⟨h.1, h.2.1⟩

/-- C2: a tick of either feed loop whose fetch fails leaves the whole metrics
dict, and hence every previously-set gauge value, unchanged, and the loop
continues to the next tick (the tick reaches its sleep). -/
theorem failed_fetch_tick_frame (m : ShipsMetrics) (e : PyErr)
    (tps : List String) (name : String) (lbl : Labels) :
    updater_ships_tick m (Except.error e) = (m, true) ∧
    updater_stats_tick m tps (Except.error e) = (m, true) ∧
    gaugeValue (updater_ships_tick m (Except.error e)).1 name lbl =
      gaugeValue m name lbl ∧
    gaugeValue (updater_stats_tick m tps (Except.error e)).1 name lbl =
      gaugeValue m name lbl :=
  ⟨rfl, rfl, rfl, rfl⟩

lemma stepOp_names (s : ExporterState) (op : Op) :
    metricNames (stepOp s op).metrics = metricNames s.metrics := by
  cases op with
  | shipsTick fetched =>
    cases fetched with
    | error e => rfl
    | ok ships =>
      simp only [stepOp, updater_ships_tick, process_ships]
      exact processShipsGo_names s.metrics ships.values
  | statsTick tps fetched =>
    cases fetched with
    | error e => rfl
    | ok stats => rfl
  | startOp => rfl
  | stopOp =>
    simp only [stepOp]
    split
    · rfl
    · rfl

/-- C8: the gauge set is fixed after initialise_metrics builds it: no
sequence of runtime operations (feed ticks with any fetch outcome, start,
stop) adds or removes a metric name from the ships metrics dict, and
initialise_metrics registers exactly the names of the ships MetricSpecs. -/
theorem gauge_set_fixed (s : ExporterState) (ops : List Op) :
    metricNames (runOps s ops).metrics = metricNames s.metrics ∧
    metricNames initialise_metrics = Specs_ships.map (fun spec => spec.1) := by
  constructor
  · induction ops generalizing s with
    | nil => rfl
    | cons op rest ih =>
      rw [runOps, List.foldl_cons]
      have h1 := ih (stepOp s op)
      rw [runOps] at h1
      rw [h1, stepOp_names]
  · rfl

lemma stopOne_ok (t : Option TaskState) : stopOne t = Except.ok none := by
  cases t with
  | none => rfl
  | some task => rfl

lemma svr_stop_fst (b : Bool) : (svr_stop b).1 = false := by
  cases b <;> rfl

/-- C9: stop() never raises and is idempotent: the first call leaves both
task handles None, and a second call finds them None, skips cancellation,
and completes without raising, only surfacing the benign
already-stopped warning of the metrics server. -/
theorem stop_twice_ok (s : PollerState) :
    ∃ s1 w1, poller_stop s = Except.ok (s1, w1) ∧
      s1.stats_task = none ∧ s1.ships_task = none ∧
      poller_stop s1 =
        Except.ok (s1, ["Prometheus metrics server is already stopped"]) := by
  refine ⟨{ stats_task := none, ships_task := none, svr_running := false },
    (svr_stop s.svr_running).2, ?_, rfl, rfl, rfl⟩
  rw [poller_stop, stopOne_ok, stopOne_ok]
  simp [svr_stop_fst]

/-- C4: the fetches issued by the two feed loops do not use the configured
fetch_timeout of the exporter: the source calls _fetch without a timeout
argument, so every such fetch uses the hard default of 2.0 seconds; in
particular an exporter configured with fetch_timeout 5 still issues its GETs
with timeout 2. -/
theorem fetch_timeout_not_threaded (e : ExporterCfg) :
    (updater_ships_fetch e).timeout = 2 ∧
    (updater_stats_fetch e).timeout = 2 ∧
    (updater_ships_fetch
        { resource_path := "http://h", fetch_timeout := 5 }).timeout ≠
      ({ resource_path := "http://h", fetch_timeout := 5 } :
        ExporterCfg).fetch_timeout := by
  refine ⟨rfl, rfl, ?_⟩
  show (2 : ℚ) ≠ 5
  norm_num

